import Mathlib

/-!
Shallow embedding of the Legal-Document-AI client state logic.

Embedded source:
- `src/components/chat/UploadModal.tsx`: file staging and validation
  (`validateFile`, `handleFiles`, `removeFile`, `handleUpload`).
- `src/pages/ChatPage.tsx`: chat flow (`sendMessage`), conversation-id state,
  selection state (`handleFileSelect`, default-selection effect), and the
  `ChatSection` component variant's internal `sendMessage`.

JavaScript optional strings (`string | null | undefined`) are modelled as
`Option String`; JavaScript truthiness (where `undefined`, `null` and `""`
are falsy) is `jsTruthy`. Network outcomes of the awaited remote calls are
passed in explicitly as an outcome parameter, which matches the spec's
single-threaded event model: each handler runs to completion on the state
it captured.
-/

namespace LegalDocAI

/-- Truthiness of a JS optional string: `undefined`/`null`/`""` are falsy. -/
def jsTruthy : Option String → Bool
  | some s => !(s == "")
  | none => false

/-- JS `x || d` for an optional string `x` and a string default `d`. -/
def jsOr (x : Option String) (d : String) : String :=
  if jsTruthy x then x.getD d else d

/-- JS `x || undefined` for an optional string `x`. -/
def jsOrUndef (x : Option String) : Option String :=
  if jsTruthy x then x else none

/-- JS `s.trim()`: strip whitespace from both ends of the string. -/
def jsTrim (s : String) : String :=
  String.mk
    (((s.data.dropWhile Char.isWhitespace).reverse.dropWhile
      Char.isWhitespace).reverse)

/-- Does `needle` occur at the head of `hay`? (helper for `strIncludes`). -/
def matchesHead : List Char → List Char → Bool
  | [], _ => true
  | _ :: _, [] => false
  | a :: as, b :: bs => a == b && matchesHead as bs

/-- Does `needle` occur anywhere in `hay`? (helper for `strIncludes`). -/
def occursIn (needle : List Char) : List Char → Bool
  | [] => matchesHead needle []
  | c :: cs => matchesHead needle (c :: cs) || occursIn needle cs

/-- JS `hay.includes(needle)`: substring containment on strings. -/
def strIncludes (hay needle : String) : Bool :=
  occursIn needle.data hay.data

/-! ### UploadModal.tsx: staging and validation -/

/-- A candidate `File` as the upload modal reads it: `name`, `size` (bytes),
    `type` (MIME type). -/
structure JSFile where
  name : String
  size : Nat
  type : String
deriving DecidableEq

/-- `const MAX_FILES = 50`. -/
def MAX_FILES : Nat := 50

/-- `const MAX_FILE_SIZE = 10 * 1024 * 1024`. -/
def MAX_FILE_SIZE : Nat := 10 * 1024 * 1024

/-- `const ACCEPTED_TYPES = ['application/pdf']`. -/
def ACCEPTED_TYPES : List String := ["application/pdf"]

/-- The modal's local state: `selectedFiles` (the staged list) and `errors`. -/
structure ModalState where
  selectedFiles : List JSFile
  errors : List String
deriving DecidableEq

/-- `validateFile` from UploadModal.tsx. `currentFileCount` is the prop
    (already-stored count); `selectedFiles` is the staged list captured by the
    closure at the time `handleFiles` was invoked. -/
def validateFile (currentFileCount : Nat) (selectedFiles : List JSFile)
    (file : JSFile) : Option String :=
  if !(ACCEPTED_TYPES.contains file.type) then
    some (file.name ++ ": Only PDF files are supported")
  else if file.size > MAX_FILE_SIZE then
    some (file.name ++ ": File size must be under 10MB")
  else if currentFileCount + selectedFiles.length ≥ MAX_FILES then
    some ("Cannot exceed " ++ toString MAX_FILES ++ " files total")
  else none

/-- The `fileArray.forEach` loop of `handleFiles`: accumulates
    (`newErrors`, `validFiles`) in batch order. The duplicate check against
    `existingNames` runs before `validateFile`, and `validateFile` sees the
    staged list as it was when the batch began (the state is only written once,
    after the loop). -/
def handleFilesLoop (currentFileCount : Nat) (selectedFiles : List JSFile)
    (existingNames : List String) :
    List JSFile → List String × List JSFile
  | [] => ([], [])
  | file :: rest =>
    let tail := handleFilesLoop currentFileCount selectedFiles existingNames rest
    if existingNames.contains file.name then
      ((file.name ++ ": File already selected") :: tail.1, tail.2)
    else
      match validateFile currentFileCount selectedFiles file with
      | some e => (e :: tail.1, tail.2)
      | none => (tail.1, file :: tail.2)

/-- `handleFiles` from UploadModal.tsx: validates a batch, replaces prior
    errors that mention any batch file's name, and appends the accepted
    candidates to the staged list. -/
def handleFiles (currentFileCount : Nat) (st : ModalState)
    (files : List JSFile) : ModalState :=
  let existingNames := st.selectedFiles.map (·.name)
  let out := handleFilesLoop currentFileCount st.selectedFiles existingNames files
  { selectedFiles := st.selectedFiles ++ out.2,
    errors :=
      (st.errors.filter (fun e => !(files.any (fun f => strIncludes e f.name))))
        ++ out.1 }

/-- `removeFile` from UploadModal.tsx. The code reads
    `selectedFiles[index].name` with no bounds check, so the embedding is
    `Option`-valued: `none` models the TypeError thrown when `index` is out of
    range (JS indexing yields `undefined` and `.name` on it throws). In range,
    `prev.filter((_, i) => i !== index)` deletes exactly the entry at `index`
    (`eraseIdx`), and errors mentioning the removed file's name are dropped. -/
def removeFile (index : Int) (st : ModalState) : Option ModalState :=
  if 0 ≤ index ∧ index < (st.selectedFiles.length : Int) then
    let removedFile := st.selectedFiles.getD index.toNat ⟨"", 0, ""⟩
    some { selectedFiles := st.selectedFiles.eraseIdx index.toNat,
           errors := st.errors.filter
             (fun e => !(strIncludes e removedFile.name)) }
  else none

/-- Outcome of `await onFilesUploaded(selectedFiles)`: success, or a thrown
    error whose `message` is the optional string (`none` models an error
    object with no usable message, as does `some ""` by JS truthiness). -/
inductive UploadOutcome where
  | success
  | failure (errMsg : Option String)
deriving DecidableEq

/-- `handleUpload` from UploadModal.tsx: no-op on an empty staged list;
    on success clears staged files and errors; on failure keeps the staged
    files and sets the error list to the single synthetic entry
    `"Upload failed: <message or fallback>"` (errors were cleared before the
    await, so the failure entry is the whole list). -/
def handleUpload (st : ModalState) (outcome : UploadOutcome) : ModalState :=
  if st.selectedFiles.length = 0 then st
  else
    match outcome with
    | .success => { selectedFiles := [], errors := [] }
    | .failure errMsg =>
      { selectedFiles := st.selectedFiles,
        errors := ["Upload failed: " ++ jsOr errMsg "Please try again"] }

/-! ### ChatPage.tsx: chat flow and selection state -/

/-- Message sender tag. -/
inductive Sender where
  | user
  | ai
deriving DecidableEq

/-- The `Message` record of ChatPage.tsx. Timestamps are abstract clock
    readings (`Nat`). -/
structure Message where
  id : String
  text : String
  sender : Sender
  timestamp : Nat
  conversation_id : Option String
deriving DecidableEq

/-- The payload handed to the chat collaborator
    (`chatMutation.mutateAsync`). -/
structure ChatPayload where
  message : String
  file_id : Option String
  conversation_id : Option String
deriving DecidableEq

/-- The chat collaborator's response record; all three fields are optional in
    the contract. -/
structure ChatResponse where
  response : Option String
  message_id : Option String
  conversation_id : Option String
deriving DecidableEq

/-- Outcome of `await chatMutation.mutateAsync(...)`: a response payload, or a
    thrown error whose `message` is the optional string. -/
inductive ChatOutcome where
  | success (r : ChatResponse)
  | failure (errMsg : Option String)
deriving DecidableEq

/-- The chat-relevant state of ChatPage.tsx: the message log, the nullable
    conversation id, and the input field. -/
structure ChatState where
  messages : List Message
  conversationId : Option String
  inputText : String
deriving DecidableEq

/-- Initial chat state: `useState<Message[]>([])`,
    `useState<string | null>(null)`, `useState("")`. -/
def initialChatState : ChatState :=
  { messages := [], conversationId := none, inputText := "" }

/-- One complete run of ChatPage.tsx's `sendMessage` (user event through
    resolution of the awaited chat call, whose outcome is `outcome`).
    Returns the new state and the payload sent to the collaborator (`none`
    when the trimmed text is empty and no call is made). `now` abstracts
    `Date.now()`; the AI/error message id uses `now + 1` as in the code. -/
def sendMessage (st : ChatState) (activeFileId : Option String)
    (text : String) (now : Nat) (outcome : ChatOutcome) :
    ChatState × Option ChatPayload :=
  if jsTrim text = "" then (st, none)
  else
    let userMessage : Message :=
      { id := toString now, text := jsTrim text, sender := .user,
        timestamp := now, conversation_id := jsOrUndef st.conversationId }
    let payload : ChatPayload :=
      { message := jsTrim text, file_id := jsOrUndef activeFileId,
        conversation_id := jsOrUndef st.conversationId }
    match outcome with
    | .success r =>
      let newConvId :=
        if !(jsTruthy st.conversationId) && jsTruthy r.conversation_id then
          r.conversation_id
        else st.conversationId
      let aiMessage : Message :=
        { id := jsOr r.message_id (toString (now + 1)),
          text := jsOr r.response "I received your message.",
          sender := .ai, timestamp := now,
          conversation_id := r.conversation_id }
      ({ messages := st.messages ++ [userMessage, aiMessage],
         conversationId := newConvId, inputText := "" }, some payload)
    | .failure errMsg =>
      let errorMessage : Message :=
        { id := toString (now + 1),
          text := "Sorry, I encountered an error: "
            ++ jsOr errMsg "Please try again.",
          sender := .ai, timestamp := now, conversation_id := none }
      ({ messages := st.messages ++ [userMessage, errorMessage],
         conversationId := st.conversationId, inputText := "" }, some payload)

/-- The `ChatSection` component variant's internal `sendMessage`
    (the version cited at ChatPage.tsx lines 348-393): identical to the
    page-level flow except that the failure message text is
    `"Error: <reason>"` rather than `"Sorry, I encountered an error:"`. -/
def sendMessageChatSection (st : ChatState) (activeFileId : Option String)
    (text : String) (now : Nat) (outcome : ChatOutcome) :
    ChatState × Option ChatPayload :=
  if jsTrim text = "" then (st, none)
  else
    let userMessage : Message :=
      { id := toString now, text := jsTrim text, sender := .user,
        timestamp := now, conversation_id := jsOrUndef st.conversationId }
    let payload : ChatPayload :=
      { message := jsTrim text, file_id := jsOrUndef activeFileId,
        conversation_id := jsOrUndef st.conversationId }
    match outcome with
    | .success r =>
      let newConvId :=
        if !(jsTruthy st.conversationId) && jsTruthy r.conversation_id then
          r.conversation_id
        else st.conversationId
      let aiMessage : Message :=
        { id := jsOr r.message_id (toString (now + 1)),
          text := jsOr r.response "I received your message.",
          sender := .ai, timestamp := now,
          conversation_id := r.conversation_id }
      ({ messages := st.messages ++ [userMessage, aiMessage],
         conversationId := newConvId, inputText := "" }, some payload)
    | .failure errMsg =>
      let errorMessage : Message :=
        { id := toString (now + 1),
          text := "Error: " ++ jsOr errMsg "Please try again.",
          sender := .ai, timestamp := now, conversation_id := none }
      ({ messages := st.messages ++ [userMessage, errorMessage],
         conversationId := st.conversationId, inputText := "" }, some payload)

/-- One chat event: the active file id at send time, the submitted text, the
    clock reading, and the remote call's outcome. -/
structure ChatEvent where
  activeFileId : Option String
  text : String
  now : Nat
  outcome : ChatOutcome

/-- State transition of one `sendMessage` event. -/
def sendStep (st : ChatState) (e : ChatEvent) : ChatState :=
  (sendMessage st e.activeFileId e.text e.now e.outcome).1

/-- A session: a sequence of `sendMessage` events applied in order. -/
def sendTrace (st : ChatState) (events : List ChatEvent) : ChatState :=
  events.foldl sendStep st

/-! ### ChatPage.tsx: selection and registry state -/

/-- An `UploadedFile` record as mirrored from the file-listing collaborator. -/
structure UploadedFile where
  id : String
  name : String
  size : Nat
  type : String
  uploadedAt : Nat
deriving DecidableEq

/-- The selection-related state of ChatPage.tsx. -/
structure SelectionState where
  selectedFiles : List String
  activeDocument : Option String
  activeFileId : Option String
deriving DecidableEq

/-- The default-selection effect (ChatPage.tsx lines 81-88): when the
    selection is empty and the registry is non-empty, select and activate the
    first file in registry order; otherwise leave the state unchanged. -/
def defaultSelectionEffect (uploadedFiles : List UploadedFile)
    (st : SelectionState) : SelectionState :=
  match uploadedFiles, st.selectedFiles with
  | firstFile :: _, [] =>
    { selectedFiles := [firstFile.id],
      activeDocument := some firstFile.name,
      activeFileId := some firstFile.id }
  | _, _ => st

/-- `handleFileSelect` from ChatPage.tsx: when `selected` is true the id is
    appended (`[...prev, fileId]`, with no membership guard); when false every
    occurrence is filtered out. -/
def handleFileSelect (fileId : String) (selected : Bool)
    (selectedFiles : List String) : List String :=
  if selected then selectedFiles ++ [fileId]
  else selectedFiles.filter (fun id => id != fileId)

/-! ### Helper lemmas -/

theorem jsOr_none (d : String) : jsOr none d = d := rfl

theorem jsOr_some_empty (d : String) : jsOr (some "") d = d := by
  simp [jsOr, jsTruthy]

theorem jsOr_some_of_ne (s d : String) (h : s ≠ "") : jsOr (some s) d = s := by
  simp [jsOr, jsTruthy, h]

theorem jsOrUndef_none : jsOrUndef none = none := rfl

theorem jsOrUndef_some_of_ne (s : String) (h : s ≠ "") :
    jsOrUndef (some s) = some s := by
  simp [jsOrUndef, jsTruthy, h]

theorem jsTruthy_some_of_ne (s : String) (h : s ≠ "") :
    jsTruthy (some s) = true := by
  simp [jsTruthy, h]

/-! ### Claims about UploadModal.tsx -/

/-- C10 (confirmed): `removeFile` reads the name of the staged entry at its
index without a bounds check, so it is well-defined exactly under the
precondition `0 ≤ index < length` of the staged list: the error branch of the
total embedding (`none`) is reached precisely when that precondition fails. -/
theorem C10_removeFile_precondition (st : ModalState) (index : Int) :
    removeFile index st = none ↔
      ¬ (0 ≤ index ∧ index < (st.selectedFiles.length : Int)) := by
  unfold removeFile
  split <;> simp_all

/-- C7 (confirmed): for every in-range index, `removeFile` removes all error
entries that reference (as a substring) the removed file's name, keeps every
error entry that does not reference it (the result is exactly the filter of
the old error list), and the other staged files are left unchanged in order
(the staged list becomes `take i ++ drop (i+1)`). -/
theorem C7_removeFile_frame (st : ModalState) (i : Nat)
    (h : i < st.selectedFiles.length) :
    ∃ st', removeFile (i : Int) st = some st'
      ∧ st'.selectedFiles
          = st.selectedFiles.take i ++ st.selectedFiles.drop (i + 1)
      ∧ (∀ e ∈ st'.errors, strIncludes e (st.selectedFiles[i]).name = false)
      ∧ (∀ e ∈ st.errors,
          strIncludes e (st.selectedFiles[i]).name = false → e ∈ st'.errors)
      ∧ st'.errors = st.errors.filter
          (fun e => !(strIncludes e (st.selectedFiles[i]).name)) := by
  have hc : 0 ≤ (i : Int) ∧ (i : Int) < (st.selectedFiles.length : Int) :=
    ⟨Int.natCast_nonneg i, by exact_mod_cast h⟩
  refine ⟨{ selectedFiles := st.selectedFiles.eraseIdx i,
            errors := st.errors.filter
              (fun e => !(strIncludes e (st.selectedFiles[i]).name)) },
          ?_, ?_, ?_, ?_, rfl⟩
  · unfold removeFile
    rw [if_pos hc]
    simp only [Int.toNat_natCast]
    rw [List.getD_eq_getElem _ _ h]
  · exact List.eraseIdx_eq_take_drop_succ _ _
  · intro e he
    rw [List.mem_filter] at he
    simpa using he.2
  · intro e he hn
    rw [List.mem_filter]
    exact ⟨he, by simpa using hn⟩

/-- Witness for C7 at a concrete state and index 0. -/
theorem C7_removeFile_frame_witness :
    (0 < ([⟨"a.pdf", 5, "application/pdf"⟩] : List JSFile).length)
    ∧ ∃ st', removeFile (0 : Int)
          ⟨[⟨"a.pdf", 5, "application/pdf"⟩], ["a.pdf: x", "b.pdf: y"]⟩
          = some st'
      ∧ st'.selectedFiles
          = ([⟨"a.pdf", 5, "application/pdf"⟩] : List JSFile).take 0
            ++ ([⟨"a.pdf", 5, "application/pdf"⟩] : List JSFile).drop 1
      ∧ (∀ e ∈ st'.errors,
          strIncludes e
            ((([⟨"a.pdf", 5, "application/pdf"⟩] : List JSFile))[0]).name
            = false)
      ∧ (∀ e ∈ (["a.pdf: x", "b.pdf: y"] : List String),
          strIncludes e
            ((([⟨"a.pdf", 5, "application/pdf"⟩] : List JSFile))[0]).name
            = false → e ∈ st'.errors)
      ∧ st'.errors = (["a.pdf: x", "b.pdf: y"] : List String).filter
          (fun e => !(strIncludes e
            ((([⟨"a.pdf", 5, "application/pdf"⟩] : List JSFile))[0]).name)) :=
  ⟨by decide,
    C7_removeFile_frame
      ⟨[⟨"a.pdf", 5, "application/pdf"⟩], ["a.pdf: x", "b.pdf: y"]⟩ 0
      (by decide)⟩

/-- C4 counterexample: the code checks for a duplicate staged name before the
MIME-type check, so a non-PDF duplicate yields the duplicate error rather than
the type error demanded by the claimed precedence; and a file whose acceptance
brings the combined total exactly to 50 (already-stored 49, none staged) is
accepted with no error, although the claim's "would push ... at or past 50"
demands rejection. -/
theorem C4_counterexample :
    (handleFiles 0 ⟨[⟨"a.pdf", 5, "application/pdf"⟩], []⟩
        [⟨"a.pdf", 5, "text/plain"⟩]).errors
      = ["a.pdf: File already selected"]
    ∧ ("a.pdf: File already selected" : String)
        ≠ "a.pdf: Only PDF files are supported"
    ∧ handleFiles 49 ⟨[], []⟩ [⟨"b.pdf", 5, "application/pdf"⟩]
        = ⟨[⟨"b.pdf", 5, "application/pdf"⟩], []⟩ := by decide

/-- C4 (amended): validation is applied per candidate in the precedence
(1) duplicate staged name, (2) MIME type not "application/pdf", (3) size over
10 MiB, (4) count ceiling, where the count check rejects exactly when
already-stored plus already-staged is already at or past 50 before counting
the candidate; a candidate failing an earlier check yields only that check's
error, and an accepted candidate is appended to the staged list. -/
theorem C4_validation_precedence (cnt : Nat) (staged : List JSFile)
    (names : List String) (f : JSFile) :
    (names.contains f.name = true →
      handleFilesLoop cnt staged names [f]
        = ([f.name ++ ": File already selected"], []))
    ∧ (names.contains f.name = false → f.type ≠ "application/pdf" →
      handleFilesLoop cnt staged names [f]
        = ([f.name ++ ": Only PDF files are supported"], []))
    ∧ (names.contains f.name = false → f.type = "application/pdf" →
        f.size > 10 * 1024 * 1024 →
      handleFilesLoop cnt staged names [f]
        = ([f.name ++ ": File size must be under 10MB"], []))
    ∧ (names.contains f.name = false → f.type = "application/pdf" →
        f.size ≤ 10 * 1024 * 1024 → cnt + staged.length ≥ 50 →
      handleFilesLoop cnt staged names [f]
        = (["Cannot exceed 50 files total"], []))
    ∧ (names.contains f.name = false → f.type = "application/pdf" →
        f.size ≤ 10 * 1024 * 1024 → cnt + staged.length < 50 →
      handleFilesLoop cnt staged names [f] = ([], [f]))
    ∧ (∀ (st : ModalState) (batch : List JSFile),
        (handleFiles cnt st batch).selectedFiles
          = st.selectedFiles
            ++ (handleFilesLoop cnt st.selectedFiles
                 (st.selectedFiles.map (·.name)) batch).2) := by
  refine ⟨?_, ?_, ?_, ?_, ?_, ?_⟩
  · intro h1
    have h1' : f.name ∈ names := by simpa using h1
    simp [handleFilesLoop, h1']
  · intro h1 h2
    have h1' : f.name ∉ names := by simpa using h1
    simp [handleFilesLoop, h1', validateFile, ACCEPTED_TYPES, h2]
  · intro h1 h2 h3
    have h1' : f.name ∉ names := by simpa using h1
    simp [handleFilesLoop, h1', validateFile, ACCEPTED_TYPES, h2,
      MAX_FILE_SIZE, h3]
  · intro h1 h2 h3 h4
    have h1' : f.name ∉ names := by simpa using h1
    have h3' : ¬ (10 * 1024 * 1024 < f.size) := by omega
    have hfifty : ("Cannot exceed " ++ toString 50 ++ " files total" : String)
        = "Cannot exceed 50 files total" := by decide
    have hv : validateFile cnt staged f
        = some "Cannot exceed 50 files total" := by
      simp [validateFile, ACCEPTED_TYPES, h2, MAX_FILE_SIZE, MAX_FILES,
        h3', h4, hfifty]
    simp [handleFilesLoop, h1', hv]
  · intro h1 h2 h3 h4
    have h1' : f.name ∉ names := by simpa using h1
    have h3' : ¬ (10 * 1024 * 1024 < f.size) := by omega
    have h4' : ¬ (50 ≤ cnt + staged.length) := by omega
    have hv : validateFile cnt staged f = none := by
      simp [validateFile, ACCEPTED_TYPES, h2, MAX_FILE_SIZE, MAX_FILES,
        h3', h4']
    simp [handleFilesLoop, h1', hv]
  · intro st batch
    rfl

/-- Witness for C4 (amended) at the duplicate branch. -/
theorem C4_validation_precedence_witness :
    ((["a.pdf"] : List String).contains "a.pdf" = true)
    ∧ handleFilesLoop 0 [] ["a.pdf"] [⟨"a.pdf", 5, "text/plain"⟩]
        = (["a.pdf" ++ ": File already selected"], []) :=
  ⟨by decide,
    (C4_validation_precedence 0 [] ["a.pdf"] ⟨"a.pdf", 5, "text/plain"⟩).1
      (by decide)⟩

/-- C5 (confirmed): when submission runs (non-empty staged list), a failed
submission leaves the staged list exactly as before and makes the error list
exactly the one synthetic entry "Upload failed: <reason or fallback>", whose
content depends only on the failure reason and names no staged file; a
successful submission empties both the staged list and the error list. -/
theorem C5_handleUpload (st : ModalState) (h : st.selectedFiles ≠ []) :
    handleUpload st .success = ⟨[], []⟩
    ∧ (∀ msg, (handleUpload st (.failure msg)).selectedFiles
        = st.selectedFiles)
    ∧ (∀ e, e ≠ "" →
        (handleUpload st (.failure (some e))).errors
          = ["Upload failed: " ++ e])
    ∧ ((handleUpload st (.failure none)).errors
        = ["Upload failed: Please try again"])
    ∧ ((handleUpload st (.failure (some ""))).errors
        = ["Upload failed: Please try again"]) := by
  have hl : ¬ st.selectedFiles.length = 0 := by simpa using h
  refine ⟨?_, ?_, ?_, ?_, ?_⟩
  · simp [handleUpload, hl]
  · intro msg
    simp [handleUpload, hl]
  · intro e he
    simp [handleUpload, hl, jsOr_some_of_ne e _ he]
  · simp [handleUpload, hl, jsOr_none]
  · simp [handleUpload, hl, jsOr_some_empty]

/-- Witness for C5 at a concrete one-file staged state. -/
theorem C5_handleUpload_witness :
    (([⟨"a.pdf", 5, "application/pdf"⟩] : List JSFile) ≠ [])
    ∧ (handleUpload ⟨[⟨"a.pdf", 5, "application/pdf"⟩], ["x"]⟩ .success
        = ⟨[], []⟩
      ∧ (∀ msg,
          (handleUpload ⟨[⟨"a.pdf", 5, "application/pdf"⟩], ["x"]⟩
              (.failure msg)).selectedFiles
            = [⟨"a.pdf", 5, "application/pdf"⟩])
      ∧ (∀ e, e ≠ "" →
          (handleUpload ⟨[⟨"a.pdf", 5, "application/pdf"⟩], ["x"]⟩
              (.failure (some e))).errors
            = ["Upload failed: " ++ e])
      ∧ ((handleUpload ⟨[⟨"a.pdf", 5, "application/pdf"⟩], ["x"]⟩
            (.failure none)).errors
          = ["Upload failed: Please try again"])
      ∧ ((handleUpload ⟨[⟨"a.pdf", 5, "application/pdf"⟩], ["x"]⟩
            (.failure (some ""))).errors
          = ["Upload failed: Please try again"])) :=
  ⟨by decide,
    C5_handleUpload ⟨[⟨"a.pdf", 5, "application/pdf"⟩], ["x"]⟩ (by decide)⟩

/-- C6 (confirmed): re-validating a batch replaces rather than doubles error
entries: every error in the post-batch error list that references the name of
a file in the batch is one of the new batch's own entries (prior entries for
that name are removed); and concretely, staging "a.pdf" in two separate
batches leaves exactly one staged entry named "a.pdf" and exactly the one
duplicate-name error. -/
theorem C6_no_doubled_errors (cnt : Nat) (st : ModalState)
    (batch : List JSFile) (f : JSFile) (hf : f ∈ batch) :
    (∀ e ∈ (handleFiles cnt st batch).errors,
        strIncludes e f.name = true →
          e ∈ (handleFilesLoop cnt st.selectedFiles
                (st.selectedFiles.map (·.name)) batch).1)
    ∧ handleFiles 0 (handleFiles 0 ⟨[], []⟩ [⟨"a.pdf", 5, "application/pdf"⟩])
        [⟨"a.pdf", 5, "application/pdf"⟩]
      = ⟨[⟨"a.pdf", 5, "application/pdf"⟩],
         ["a.pdf: File already selected"]⟩ := by
  constructor
  · intro e he hinc
    have hsplit : (handleFiles cnt st batch).errors
        = (st.errors.filter
            (fun e => !(batch.any (fun g => strIncludes e g.name))))
          ++ (handleFilesLoop cnt st.selectedFiles
              (st.selectedFiles.map (·.name)) batch).1 := rfl
    rw [hsplit, List.mem_append] at he
    rcases he with he | he
    · exfalso
      rw [List.mem_filter] at he
      have hany : batch.any (fun g => strIncludes e g.name) = true :=
        List.any_eq_true.mpr ⟨f, hf, hinc⟩
      simp [hany] at he
    · exact he
  · decide

/-- Witness for C6 at a singleton batch. -/
theorem C6_no_doubled_errors_witness :
    ((⟨"a.pdf", 5, "application/pdf"⟩ : JSFile)
        ∈ ([⟨"a.pdf", 5, "application/pdf"⟩] : List JSFile))
    ∧ ((∀ e ∈ (handleFiles 0 ⟨[], []⟩
            [⟨"a.pdf", 5, "application/pdf"⟩]).errors,
          strIncludes e (JSFile.name ⟨"a.pdf", 5, "application/pdf"⟩) = true →
            e ∈ (handleFilesLoop 0 []
                  (([] : List JSFile).map (·.name))
                  [⟨"a.pdf", 5, "application/pdf"⟩]).1)
      ∧ handleFiles 0
            (handleFiles 0 ⟨[], []⟩ [⟨"a.pdf", 5, "application/pdf"⟩])
            [⟨"a.pdf", 5, "application/pdf"⟩]
          = ⟨[⟨"a.pdf", 5, "application/pdf"⟩],
             ["a.pdf: File already selected"]⟩) :=
  ⟨by decide,
    C6_no_doubled_errors 0 ⟨[], []⟩ [⟨"a.pdf", 5, "application/pdf"⟩]
      ⟨"a.pdf", 5, "application/pdf"⟩ (by decide)⟩

/-! ### Claims about ChatPage.tsx -/

theorem sendStep_conversationId_assigned (st : ChatState) (e : ChatEvent)
    (h : jsTruthy st.conversationId = true) :
    (sendStep st e).conversationId = st.conversationId := by
  unfold sendStep sendMessage
  split
  · rfl
  · cases e.outcome with
    | success r => simp [h]
    | failure msg => rfl

theorem sendTrace_conversationId_assigned (st : ChatState)
    (events : List ChatEvent) (h : jsTruthy st.conversationId = true) :
    (sendTrace st events).conversationId = st.conversationId := by
  induction events generalizing st with
  | nil => rfl
  | cons e rest ih =>
    have hstep := sendStep_conversationId_assigned st e h
    have htruthy : jsTruthy (sendStep st e).conversationId = true := by
      rw [hstep]; exact h
    calc (sendTrace (sendStep st e) rest).conversationId
        = (sendStep st e).conversationId := ih _ htruthy
      _ = st.conversationId := hstep

/-- C1 counterexample: with a successful response whose `message_id` field is
present but empty, the appended AI message's id is the locally generated
fallback id ("1" here), not the present `message_id` value, so the claim's
"id equals r.message_id when that field is present" fails: the code treats a
present-but-empty id like an absent one. -/
theorem C1_counterexample :
    (ChatResponse.message_id ⟨some "hi", some "", some "c1"⟩).isSome = true
    ∧ ((sendMessage initialChatState none "hello" 0
          (.success ⟨some "hi", some "", some "c1"⟩)).1.messages.filter
        (fun m => m.sender == .ai)).map (·.id) = ["1"]
    ∧ some ("1" : String)
        ≠ ChatResponse.message_id ⟨some "hi", some "", some "c1"⟩ := by
  decide

/-- C1 (amended): for every sendMessage call whose trimmed text is non-empty
and whose remote chat call succeeds with response payload r, exactly one AI
message is appended (after the new user message): its id equals r.message_id
when that field is present and non-empty and is a locally generated id
otherwise, and its text equals r.response when that field is present and
non-empty and is "I received your message." otherwise. -/
theorem C1_ai_reply (st : ChatState) (afid : Option String) (text : String)
    (now : Nat) (r : ChatResponse) (h : jsTrim text ≠ "") :
    ∃ u a : Message,
      (sendMessage st afid text now (.success r)).1.messages
        = st.messages ++ [u, a]
      ∧ u.sender = .user ∧ a.sender = .ai
      ∧ (∀ s, r.message_id = some s → s ≠ "" → a.id = s)
      ∧ ((r.message_id = none ∨ r.message_id = some "") →
          a.id = toString (now + 1))
      ∧ (∀ s, r.response = some s → s ≠ "" → a.text = s)
      ∧ ((r.response = none ∨ r.response = some "") →
          a.text = "I received your message.") := by
  refine ⟨{ id := toString now, text := jsTrim text, sender := .user,
            timestamp := now, conversation_id := jsOrUndef st.conversationId },
          { id := jsOr r.message_id (toString (now + 1)),
            text := jsOr r.response "I received your message.",
            sender := .ai, timestamp := now,
            conversation_id := r.conversation_id },
          ?_, rfl, rfl, ?_, ?_, ?_, ?_⟩
  · simp [sendMessage, h]
  · intro s hs hne
    simp only [hs]
    exact jsOr_some_of_ne s _ hne
  · rintro (hs | hs) <;> simp only [hs]
    · exact jsOr_none _
    · exact jsOr_some_empty _
  · intro s hs hne
    simp only [hs]
    exact jsOr_some_of_ne s _ hne
  · rintro (hs | hs) <;> simp only [hs]
    · exact jsOr_none _
    · exact jsOr_some_empty _

/-- Witness for C1 (amended) at a concrete successful exchange. -/
theorem C1_ai_reply_witness :
    (jsTrim "hello" ≠ "")
    ∧ ∃ u a : Message,
      (sendMessage initialChatState none "hello" 0
          (.success ⟨some "hi", some "m1", some "c1"⟩)).1.messages
        = initialChatState.messages ++ [u, a]
      ∧ u.sender = .user ∧ a.sender = .ai
      ∧ (∀ s, (some "m1" : Option String) = some s → s ≠ "" → a.id = s)
      ∧ (((some "m1" : Option String) = none
            ∨ (some "m1" : Option String) = some "") →
          a.id = toString (0 + 1))
      ∧ (∀ s, (some "hi" : Option String) = some s → s ≠ "" → a.text = s)
      ∧ (((some "hi" : Option String) = none
            ∨ (some "hi" : Option String) = some "") →
          a.text = "I received your message.") :=
  ⟨by decide,
    C1_ai_reply initialChatState none "hello" 0
      ⟨some "hi", some "m1", some "c1"⟩ (by decide)⟩

/-- C2 (confirmed): the conversation id starts null; once it holds a
(non-empty) value it is unchanged by every further sequence of sendMessage
events; from the unassigned state a sendMessage that actually calls out
assigns exactly the successful response's conversation id when the response
carries a non-empty one and assigns nothing otherwise (failures assign
nothing); every payload sent after assignment carries the stored conversation
id, and before assignment the payload's conversation_id field is absent. -/
theorem C2_conversation_id (st : ChatState) (afid : Option String)
    (text : String) (now : Nat) (outcome : ChatOutcome)
    (events : List ChatEvent) (c : String) :
    initialChatState.conversationId = none
    ∧ (jsTruthy st.conversationId = true →
        (sendTrace st events).conversationId = st.conversationId)
    ∧ (st.conversationId = none → jsTrim text ≠ "" →
        (sendMessage st afid text now outcome).1.conversationId
          = match outcome with
            | .success r =>
                if jsTruthy r.conversation_id then r.conversation_id else none
            | .failure _ => none)
    ∧ (st.conversationId = some c → c ≠ "" →
        ∀ p, (sendMessage st afid text now outcome).2 = some p →
          p.conversation_id = some c)
    ∧ (st.conversationId = none →
        ∀ p, (sendMessage st afid text now outcome).2 = some p →
          p.conversation_id = none) := by
  refine ⟨rfl, sendTrace_conversationId_assigned st events, ?_, ?_, ?_⟩
  · intro h ht
    unfold sendMessage
    rw [if_neg ht]
    cases outcome with
    | success r => simp [h, jsTruthy]
    | failure msg => simpa using h
  · intro h hc p hp
    unfold sendMessage at hp
    by_cases ht : jsTrim text = ""
    · rw [if_pos ht] at hp
      simp at hp
    · rw [if_neg ht] at hp
      cases outcome with
      | success r =>
        simp only [Option.some.injEq] at hp
        rw [← hp]
        simp [h, jsOrUndef_some_of_ne c hc]
      | failure msg =>
        simp only [Option.some.injEq] at hp
        rw [← hp]
        simp [h, jsOrUndef_some_of_ne c hc]
  · intro h p hp
    unfold sendMessage at hp
    by_cases ht : jsTrim text = ""
    · rw [if_pos ht] at hp
      simp at hp
    · rw [if_neg ht] at hp
      cases outcome with
      | success r =>
        simp only [Option.some.injEq] at hp
        rw [← hp]
        simp [h, jsOrUndef_none]
      | failure msg =>
        simp only [Option.some.injEq] at hp
        rw [← hp]
        simp [h, jsOrUndef_none]

/-- Witness for C2 at concrete assigned and unassigned states. -/
theorem C2_conversation_id_witness :
    initialChatState.conversationId = none
    ∧ (sendTrace (ChatState.mk [] (some "c1") "")
        [⟨none, "hi", 0, .failure none⟩]).conversationId = some "c1"
    ∧ (sendMessage (ChatState.mk [] none "") none "hi" 0
        (.success ⟨some "r", none, some "c2"⟩)).1.conversationId = some "c2"
    ∧ (ChatPayload.conversation_id ⟨"hi", none, some "c1"⟩ = some "c1")
    ∧ (ChatPayload.conversation_id ⟨"hi", none, none⟩ = none) :=
  ⟨(C2_conversation_id (ChatState.mk [] (some "c1") "") none "hi" 0
      (.failure none) [⟨none, "hi", 0, .failure none⟩] "c1").1,
   (C2_conversation_id (ChatState.mk [] (some "c1") "") none "hi" 0
      (.failure none) [⟨none, "hi", 0, .failure none⟩] "c1").2.1 (by decide),
   (C2_conversation_id (ChatState.mk [] none "") none "hi" 0
      (.success ⟨some "r", none, some "c2"⟩) [] "c2").2.2.1 rfl (by decide),
   (C2_conversation_id (ChatState.mk [] (some "c1") "") none "hi" 0
      (.failure none) [] "c1").2.2.2.1 rfl (by decide)
      ⟨"hi", none, some "c1"⟩ (by decide),
   (C2_conversation_id (ChatState.mk [] none "") none "hi" 0
      (.failure none) [] "c1").2.2.2.2 rfl
      ⟨"hi", none, none⟩ (by decide)⟩

/-- C3 counterexample: in the ChatSection variant cited by the claim, the
failure message's text is "Error: <reason>", not
"Sorry, I encountered an error: <reason>". -/
theorem C3_counterexample :
    ((sendMessageChatSection initialChatState none "hi" 0
        (.failure (some "boom"))).1.messages.filter
      (fun m => m.sender == .ai)).map (·.text) = ["Error: boom"]
    ∧ ("Error: boom" : String) ≠ "Sorry, I encountered an error: boom"
    ∧ strIncludes "Error: boom" "Sorry, I encountered an error" = false := by
  decide

/-- C3 (amended): for every sendMessage call whose trimmed text is non-empty
and whose remote chat call fails with reason e, exactly one AI message is
appended (after the new user message) whose text reports the failure:
"Sorry, I encountered an error: <e>" in the page-level sendMessage and
"Error: <e>" in the cited ChatSection variant, with the generic fallback
reason "Please try again." when no reason is available; that message carries
no conversation id, and the stored conversation id is unchanged. -/
theorem C3_failure_message (st : ChatState) (afid : Option String)
    (text : String) (now : Nat) (errMsg : Option String)
    (h : jsTrim text ≠ "") :
    (∃ u a : Message,
      (sendMessage st afid text now (.failure errMsg)).1.messages
        = st.messages ++ [u, a]
      ∧ u.sender = .user ∧ a.sender = .ai
      ∧ (∀ e, errMsg = some e → e ≠ "" →
          a.text = "Sorry, I encountered an error: " ++ e)
      ∧ ((errMsg = none ∨ errMsg = some "") →
          a.text = "Sorry, I encountered an error: Please try again.")
      ∧ a.conversation_id = none)
    ∧ (sendMessage st afid text now (.failure errMsg)).1.conversationId
        = st.conversationId
    ∧ (∃ u a : Message,
      (sendMessageChatSection st afid text now (.failure errMsg)).1.messages
        = st.messages ++ [u, a]
      ∧ u.sender = .user ∧ a.sender = .ai
      ∧ (∀ e, errMsg = some e → e ≠ "" → a.text = "Error: " ++ e)
      ∧ ((errMsg = none ∨ errMsg = some "") →
          a.text = "Error: Please try again.")
      ∧ a.conversation_id = none)
    ∧ (sendMessageChatSection st afid text now
        (.failure errMsg)).1.conversationId = st.conversationId := by
  refine ⟨⟨{ id := toString now, text := jsTrim text, sender := .user,
             timestamp := now,
             conversation_id := jsOrUndef st.conversationId },
           { id := toString (now + 1),
             text := "Sorry, I encountered an error: "
               ++ jsOr errMsg "Please try again.",
             sender := .ai, timestamp := now, conversation_id := none },
           ?_, rfl, rfl, ?_, ?_, rfl⟩, ?_,
          ⟨{ id := toString now, text := jsTrim text, sender := .user,
             timestamp := now,
             conversation_id := jsOrUndef st.conversationId },
           { id := toString (now + 1),
             text := "Error: " ++ jsOr errMsg "Please try again.",
             sender := .ai, timestamp := now, conversation_id := none },
           ?_, rfl, rfl, ?_, ?_, rfl⟩, ?_⟩
  · simp [sendMessage, h]
  · intro e he hne
    simp only [he]
    rw [jsOr_some_of_ne e _ hne]
  · rintro (he | he) <;> simp only [he]
    · rw [jsOr_none]
      decide
    · rw [jsOr_some_empty]
      decide
  · simp [sendMessage, h]
  · simp [sendMessageChatSection, h]
  · intro e he hne
    simp only [he]
    rw [jsOr_some_of_ne e _ hne]
  · rintro (he | he) <;> simp only [he]
    · rw [jsOr_none]
      decide
    · rw [jsOr_some_empty]
      decide
  · simp [sendMessageChatSection, h]

/-- Witness for C3 (amended) at a concrete failing exchange. -/
theorem C3_failure_message_witness :
    (jsTrim "hi" ≠ "")
    ∧ ((∃ u a : Message,
        (sendMessage initialChatState none "hi" 0
            (.failure (some "boom"))).1.messages
          = initialChatState.messages ++ [u, a]
        ∧ u.sender = .user ∧ a.sender = .ai
        ∧ (∀ e, (some "boom" : Option String) = some e → e ≠ "" →
            a.text = "Sorry, I encountered an error: " ++ e)
        ∧ (((some "boom" : Option String) = none
              ∨ (some "boom" : Option String) = some "") →
            a.text = "Sorry, I encountered an error: Please try again.")
        ∧ a.conversation_id = none)
      ∧ (sendMessage initialChatState none "hi" 0
          (.failure (some "boom"))).1.conversationId
            = initialChatState.conversationId
      ∧ (∃ u a : Message,
        (sendMessageChatSection initialChatState none "hi" 0
            (.failure (some "boom"))).1.messages
          = initialChatState.messages ++ [u, a]
        ∧ u.sender = .user ∧ a.sender = .ai
        ∧ (∀ e, (some "boom" : Option String) = some e → e ≠ "" →
            a.text = "Error: " ++ e)
        ∧ (((some "boom" : Option String) = none
              ∨ (some "boom" : Option String) = some "") →
            a.text = "Error: Please try again.")
        ∧ a.conversation_id = none)
      ∧ (sendMessageChatSection initialChatState none "hi" 0
          (.failure (some "boom"))).1.conversationId
            = initialChatState.conversationId) :=
  ⟨by decide,
    C3_failure_message initialChatState none "hi" 0 (some "boom")
      (by decide)⟩

/-! ### Claims about selection state -/

/-- C8 (confirmed): whenever the selection set is empty and the uploaded-file
registry is non-empty, the default-selection effect makes the first file in
registry order the single member of the selection set and the active file. -/
theorem C8_default_selection (files : List UploadedFile)
    (st : SelectionState) (h1 : st.selectedFiles = []) (h2 : files ≠ []) :
    ∃ f rest, files = f :: rest
      ∧ defaultSelectionEffect files st
        = ⟨[f.id], some f.name, some f.id⟩ := by
  cases files with
  | nil => exact absurd rfl h2
  | cons f rest =>
    refine ⟨f, rest, rfl, ?_⟩
    simp [defaultSelectionEffect, h1]

/-- Witness for C8 at the registry transition [] to [f1, f2] with empty
selection. -/
theorem C8_default_selection_witness :
    ((⟨[], none, none⟩ : SelectionState).selectedFiles = [])
    ∧ (([⟨"f1", "one.pdf", 1, "application/pdf", 0⟩,
         ⟨"f2", "two.pdf", 1, "application/pdf", 0⟩] : List UploadedFile)
        ≠ [])
    ∧ ∃ f rest,
        ([⟨"f1", "one.pdf", 1, "application/pdf", 0⟩,
          ⟨"f2", "two.pdf", 1, "application/pdf", 0⟩] : List UploadedFile)
          = f :: rest
      ∧ defaultSelectionEffect
          [⟨"f1", "one.pdf", 1, "application/pdf", 0⟩,
           ⟨"f2", "two.pdf", 1, "application/pdf", 0⟩]
          ⟨[], none, none⟩
        = ⟨[f.id], some f.name, some f.id⟩ :=
  ⟨rfl, by decide,
    C8_default_selection
      [⟨"f1", "one.pdf", 1, "application/pdf", 0⟩,
       ⟨"f2", "two.pdf", 1, "application/pdf", 0⟩]
      ⟨[], none, none⟩ rfl (by decide)⟩

/-- C9 counterexample: requesting selection of an id that is already selected
appends it again, so applying the operation twice with the same requested
final state differs from applying it once, and the selection can hold
duplicate ids. -/
theorem C9_counterexample :
    handleFileSelect "f1" true (handleFileSelect "f1" true []) = ["f1", "f1"]
    ∧ handleFileSelect "f1" true [] = ["f1"]
    ∧ (["f1", "f1"] : List String) ≠ ["f1"]
    ∧ ¬ (["f1", "f1"] : List String).Nodup := by decide

/-- C9 (amended): the selection-toggle operation appends the file id when
asked to select (unconditionally, with no membership guard, so selecting an
already-present id appends a duplicate) and removes every occurrence when
asked to deselect; it has no error conditions; deselection is idempotent per
final state, and from a duplicate-free selection not containing the id,
selecting adds the id and keeps the selection duplicate-free. -/
theorem C9_toggle_selection (fileId : String) (sel : List String) :
    handleFileSelect fileId true sel = sel ++ [fileId]
    ∧ fileId ∈ handleFileSelect fileId true sel
    ∧ fileId ∉ handleFileSelect fileId false sel
    ∧ handleFileSelect fileId false (handleFileSelect fileId false sel)
        = handleFileSelect fileId false sel
    ∧ (sel.Nodup → fileId ∉ sel →
        (handleFileSelect fileId true sel).Nodup) := by
  refine ⟨rfl, ?_, ?_, ?_, ?_⟩
  · simp [handleFileSelect]
  · simp [handleFileSelect, List.mem_filter]
  · simp [handleFileSelect, List.filter_filter]
  · intro hnd hmem
    simp [handleFileSelect, List.nodup_append, hnd, hmem]

/-- Witness for C9 (amended): selecting a fresh id keeps the selection
duplicate-free. -/
theorem C9_toggle_selection_witness :
    ((["f0"] : List String).Nodup) ∧ ("f1" ∉ (["f0"] : List String))
    ∧ (handleFileSelect "f1" true ["f0"]).Nodup :=
  ⟨by decide, by decide,
    (C9_toggle_selection "f1" ["f0"]).2.2.2.2 (by decide) (by decide)⟩

end LegalDocAI
